import Mathlib

/-!
Verification of the Drumkit Turvo adapter (Go backend).

Shallow embedding of `backend/internal/turvo/client.go` (token manager,
request builder, resource operations), `backend/internal/turvo/mapper.go`
(model mapper) and the load handler's enrichment merge
(`backend/internal/handlers`).  Machine integers and timestamps are modelled
as `Int` (seconds); Go's zero `time.Time` is the integer `0`.  JSON bodies
are modelled by an explicit `Json` value type together with decoders that
reproduce `encoding/json`'s behaviour on the struct shapes the code
unmarshals into (missing field => zero value, `null` into a struct/slice =>
zero value, type mismatch => error).  Only the fields the code under
verification reads are tracked; untracked fields are ignored by the
decoders, which matches `encoding/json` ignoring unknown keys.
-/

/-- Go `strings.TrimSpace` (ASCII-faithful: trims whitespace at both ends). -/
def goTrimSpace (s : String) : String :=
  ⟨(((s.toList.dropWhile Char.isWhitespace)).reverse.dropWhile Char.isWhitespace).reverse⟩

/-- Go `strings.TrimLeft(s, "/")`. -/
def goTrimLeftSlash (s : String) : String :=
  ⟨s.toList.dropWhile (· == '/')⟩

/-- Go `strings.TrimRight(s, "/")`. -/
def goTrimRightSlash (s : String) : String :=
  ⟨(s.toList.reverse.dropWhile (· == '/')).reverse⟩

/-- Go `strings.Trim(s, "/")`. -/
def goTrimSlash (s : String) : String :=
  goTrimLeftSlash (goTrimRightSlash s)

/-- Substring occurrence on character lists (Go `strings.Contains`). -/
def listContainsSub (needle : List Char) : List Char → Bool
  | [] => needle.isEmpty
  | c :: rest => needle.isPrefixOf (c :: rest) || listContainsSub needle rest

/-- Go `strings.Contains hay needle`. -/
def strContainsSub (hay needle : String) : Bool :=
  listContainsSub needle.toList hay.toList

/-- Go `strings.HasSuffix s t`. -/
def strEndsWith (s t : String) : Bool :=
  t.toList.isSuffixOf s.toList

/-- Digits of a decimal literal, `none` on the empty list or a non-digit. -/
def parseDigitsAux : List Char → Nat → Option Nat
  | [], acc => some acc
  | c :: rest, acc =>
    if c.isDigit then parseDigitsAux rest (acc * 10 + (c.toNat - 48)) else none

/-- A non-empty all-digit character list as a `Nat`. -/
def parseDigits : List Char → Option Nat
  | [] => none
  | cs => parseDigitsAux cs 0

/-- Go `strconv.Atoi`: optional sign, then at least one digit. -/
def goAtoi (s : String) : Option Int :=
  match s.toList with
  | '+' :: rest => (parseDigits rest).map Int.ofNat
  | '-' :: rest => (parseDigits rest).map (fun n => -(n : Int))
  | cs => (parseDigits cs).map Int.ofNat

/-- Go `atoiOrZero` (client.go): `strconv.Atoi` with errors mapped to 0. -/
def atoiOrZero (s : String) : Int :=
  (goAtoi s).getD 0

/-- JSON values (numbers restricted to integers: every number the claims
exercise is integral, and the Go structs involved decode into `int`). -/
inductive Json where
  | null
  | jbool (b : Bool)
  | jnum (n : Int)
  | jstr (s : String)
  | jarr (xs : List Json)
  | jobj (fields : List (String × Json))

/-- `encoding/json` unmarshal of an object field into a Go `string`:
missing or `null` keeps the zero value `""`, a non-string is an error. -/
def decodeStrField (fs : List (String × Json)) (k : String) : Option String :=
  match fs.lookup k with
  | none => some ""
  | some Json.null => some ""
  | some (Json.jstr s) => some s
  | some _ => none

/-- `encoding/json` unmarshal of an object field into a Go `int`. -/
def decodeIntField (fs : List (String × Json)) (k : String) : Option Int :=
  match fs.lookup k with
  | none => some 0
  | some Json.null => some 0
  | some (Json.jnum n) => some n
  | some _ => none

/-- `encoding/json` unmarshal of an object field into a Go `bool`. -/
def decodeBoolField (fs : List (String × Json)) (k : String) : Option Bool :=
  match fs.lookup k with
  | none => some false
  | some Json.null => some false
  | some (Json.jbool b) => some b
  | some _ => none

/-! ## Configuration and domain model

`backend/internal/config` (the fields the client and mapper read) and
`backend/internal/domain/models.go` (the fields the mapper writes or reads;
the many untouched optional fields of `Load`, `Party`, `Stop` are omitted). -/

/-- Configuration fields consumed by the client and the mapper.
`turvoAPIPathSeg` is Go's `TurvoAPIPrefix`. -/
structure Config where
  turvoBaseURL : String := ""
  turvoAPIPathSeg : String := ""
  turvoDefaultCustomerID : Int := 0
deriving Repr, DecidableEq

/-- `domain.Party` (tracked fields). -/
structure Party where
  turvoID : Int := 0
  name : String := ""
  city : String := ""
  state : String := ""
deriving Repr, DecidableEq

/-- `domain.Stop` (tracked fields); `readyTime`/`mustDeliver` are Go
`*time.Time` (`none` = nil pointer, `some 0` = zero time). -/
structure Stop where
  city : String := ""
  state : String := ""
  readyTime : Option Int := none
  mustDeliver : Option Int := none
deriving Repr, DecidableEq

/-- `domain.Load` (tracked fields). `specifications` is `*Specifications`;
the mapper only ever stores the all-zero struct, modelled as `some ()`. -/
structure Load where
  externalTMSLoadID : String := ""
  status : String := ""
  createdAt : Option Int := none
  customer : Party := {}
  pickup : Stop := {}
  consignee : Stop := {}
  specifications : Option Unit := none
deriving Repr, DecidableEq

/-! ## Turvo wire model (`backend/internal/turvo/models.go`, tracked fields) -/

/-- `turvo.Lane`; `endPoint` is Go's `End`. -/
structure Lane where
  start : String := ""
  endPoint : String := ""
deriving Repr, DecidableEq

/-- The anonymous `struct{ID int; Name string}` inside `turvo.CustomerOrder`. -/
structure CustomerRef where
  id : Int := 0
  name : String := ""
deriving Repr, DecidableEq

/-- `turvo.CustomerOrder` (tracked fields); `orderId` is Go's `ID`. -/
structure CustomerOrder where
  orderId : Int := 0
  deleted : Bool := false
  customer : Option CustomerRef := none
  customerId : Int := 0
  customerOrderSourceId : Int := 0
deriving Repr, DecidableEq

/-- `turvo.DateWithTZ`. -/
structure DateWithTZ where
  date : Int := 0
  timeZone : String := ""
deriving Repr, DecidableEq

/-- `turvo.Shipment` (tracked fields).  `status` is Go's
`json.RawMessage` (`none` = absent / length 0, `some j` = the raw value);
`createdDate` is `*time.Time`. -/
structure Shipment where
  id : Int := 0
  customId : String := ""
  ltlShipment : Bool := false
  startDate : DateWithTZ := {}
  endDate : DateWithTZ := {}
  createdDate : Option Int := none
  status : Option Json := none
  lane : Option Lane := none
  skipDistanceCalculation : Bool := false
  customerOrder : List CustomerOrder := []

/-- The pagination block of Turvo list responses, and the anonymous
pagination struct the client returns. -/
structure Pagination where
  start : Int := 0
  pageSize : Int := 0
  totalRecordsInPage : Int := 0
  moreAvailable : Bool := false
  lastObjectKey : Option Json := none

/-! ## Model mapper (`backend/internal/turvo/mapper.go`) -/

/-- `Mapper.ToTurvoShipment`.  `now` stands for the `time.Now()` read at
the top of the function; times are seconds, so 24 hours = 86400. -/
def toTurvoShipment (cfg : Config) (now : Int) (load : Load) : Shipment :=
  let pickupAt : Int :=
    match load.pickup.readyTime with
    | some t => if t ≠ 0 then t else now
    | none => now
  let deliveryAt : Int :=
    match load.consignee.mustDeliver with
    | some t => if t ≠ 0 then t else pickupAt + 86400
    | none => pickupAt + 86400
  let custID : Int :=
    if load.customer.turvoID > 0 then load.customer.turvoID
    else cfg.turvoDefaultCustomerID
  let startLane : String :=
    goTrimSpace (goTrimSpace load.pickup.city ++ ", " ++ goTrimSpace load.pickup.state)
  let endLane : String :=
    goTrimSpace (goTrimSpace load.consignee.city ++ ", " ++ goTrimSpace load.consignee.state)
  { customId := load.externalTMSLoadID
    ltlShipment := false
    startDate := { date := pickupAt, timeZone := "UTC" }
    endDate := { date := deliveryAt, timeZone := "UTC" }
    customerOrder := [{ customer := some { id := custID, name := "" }
                        customerOrderSourceId := 1 }]
    lane := some { start := startLane, endPoint := endLane }
    skipDistanceCalculation := true }

/-- `encoding/json` unmarshal of a raw status value into the anonymous
`struct{ Code struct{ Value string }; Notes string }` of
`Mapper.FromTurvoShipment`, projected to `Code.Value`
(`none` = unmarshal error). -/
def decodeStatusStruct : Json → Option String
  | Json.null => some ""
  | Json.jobj fs =>
      match fs.lookup "code" with
      | none => some ""
      | some Json.null => some ""
      | some (Json.jobj cfs) => decodeStrField cfs "value"
      | some _ => none
  | _ => none

/-- The status-extraction prelude of `Mapper.FromTurvoShipment`: try to
parse `Status.Code.Value` if the raw message is non-empty, else `""`. -/
def extractStatusCode (raw : Option Json) : String :=
  match raw with
  | none => ""
  | some j =>
      match decodeStatusStruct j with
      | some v => goTrimSpace v
      | none => ""

/-- `Mapper.FromTurvoShipment`.  The Go function returns `(*domain.Load,
error)`; the error component is modelled by `Except String`. -/
def fromTurvoShipment (s : Shipment) : Except String Load :=
  let status0 := extractStatusCode s.status
  let statusF := if status0 = "" then "Unknown" else status0
  let customerName : String :=
    match s.customerOrder with
    | co :: _ =>
        match co.customer with
        | some c => c.name
        | none => ""
    | [] => ""
  Except.ok
    { externalTMSLoadID := s.customId
      status := statusF
      createdAt := s.createdDate
      customer := { name := customerName }
      specifications := some () }

/-! ## Token manager (`Client.fetchToken`, client.go lines 62-158) -/

/-- The token-manager fields of `turvo.Client` that `fetchToken` reads and
writes.  `nextOAuthAttempt = 0` is Go's zero `time.Time` (always in the
past for the positive clock values used below). -/
structure TokenState where
  token : String := ""
  tokenExp : Int := 0
  refresh : String := ""
  nextOAuthAttempt : Int := 0
deriving Repr, DecidableEq

/-- The outcome of the one outbound call to the OAuth token endpoint, as
`fetchToken` distinguishes it: a 429 (with the `Retry-After` header value,
`""` when absent), another non-200 status, a 200 whose body fails to
unmarshal, or a 200 with the decoded token JSON. -/
inductive TokenHttpResp where
  | rateLimited (retryAfter : String) (body : String)
  | httpError (code : Nat) (body : String)
  | okBadJson (body : String)
  | okJson (accessToken refreshToken : String) (expiresIn : Int)
deriving Repr, DecidableEq

/-- The errors `fetchToken` returns: `RateLimitedError`, the generic
`oauth token error` for other statuses, a JSON decode error, and the
`empty access_token from oauth` error. -/
inductive TokenErr where
  | rateLimited (retryAfter : Int) (msg : String)
  | oauthHttp (code : Nat) (body : String)
  | badJson (body : String)
  | emptyAccessToken
deriving Repr, DecidableEq

/-- The 429 cooldown computation of `fetchToken` (client.go lines
124-130): 60 seconds unless the `Retry-After` header is present and parses
as a positive integer. -/
def retryAfterCooldown (ra : String) : Int :=
  if ra ≠ "" then
    match goAtoi ra with
    | some secs => if secs > 0 then secs else 60
    | none => 60
  else 60

/-- `Client.fetchToken`.  `now` is the clock at the call; the third output
component counts outbound HTTP requests to the token endpoint.  `resp` is
the token endpoint's answer, consulted only when a request is made.
`useRefresh` selects the grant type of the request body, which is not
observable in the modelled outcome, so the parameter is unused here. -/
def fetchToken (st : TokenState) (now : Int) (useRefresh : Bool)
    (resp : TokenHttpResp) : Except TokenErr Unit × TokenState × Nat :=
  if st.token ≠ "" ∧ st.tokenExp - now > 60 then
    (Except.ok (), st, 0)
  else if now < st.nextOAuthAttempt then
    (Except.error (TokenErr.rateLimited (st.nextOAuthAttempt - now) ""), st, 0)
  else
    match resp with
    | TokenHttpResp.rateLimited ra body =>
        (Except.error (TokenErr.rateLimited (retryAfterCooldown ra) body),
         { st with nextOAuthAttempt := now + retryAfterCooldown ra }, 1)
    | TokenHttpResp.httpError code body =>
        (Except.error (TokenErr.oauthHttp code body), st, 1)
    | TokenHttpResp.okBadJson body =>
        (Except.error (TokenErr.badJson body), st, 1)
    | TokenHttpResp.okJson access refreshTok expiresIn =>
        if goTrimSpace access = "" then
          (Except.error TokenErr.emptyAccessToken, st, 1)
        else
          (Except.ok (),
           { token := goTrimSpace access
             refresh := refreshTok
             tokenExp := now + (if expiresIn ≤ 0 then 12 * 60 * 60 else expiresIn)
             nextOAuthAttempt := 0 }, 1)

/-! ## Request builder (`Client.buildPath`, client.go lines 160-177) -/

/-- The prefix selection inside `buildPath`: with a bearer token the full
`v1` path is used; without one, on a `publicapi.` host with a configured
`v1` path the restricted `public/v1` path is substituted.  `seg0` is the
configured `TurvoAPIPrefix` after `strings.Trim(_, "/")`. -/
def apiPathSegment (token base seg0 : String) : String :=
  if token ≠ "" then "v1"
  else if strContainsSub base "publicapi." && (seg0 == "v1" || seg0 == "/v1") then "public/v1"
  else seg0

/-- The final URL assembly of `buildPath`: the segment is inserted unless
empty or already a suffix of the base. -/
def joinBasePath (base seg res : String) : String :=
  let addSeg := seg != "" && !(strEndsWith base ("/" ++ seg) || strEndsWith base seg)
  (if addSeg then base ++ "/" ++ seg else base) ++ "/" ++ res

/-- `Client.buildPath`. -/
def buildPath (cfg : Config) (token : String) (p : String) : String :=
  let base := goTrimRightSlash cfg.turvoBaseURL
  let seg := apiPathSegment token base (goTrimSlash cfg.turvoAPIPathSeg)
  joinBasePath base seg (goTrimLeftSlash p)

/-! ## List-response parsing
(`Client.ListShipmentsPage` lines 297-330 and
`Client.ListShipmentsPageWithQuery` lines 514-547) -/

/-- `encoding/json` unmarshal of one element of a `[]Shipment` value
(tracked fields; unknown keys are ignored as `encoding/json` does). -/
def decodeShipment : Json → Option Shipment
  | Json.null => some {}
  | Json.jobj fs => do
      let i ← decodeIntField fs "id"
      let cid ← decodeStrField fs "customId"
      let ln ← match fs.lookup "lane" with
               | none => some none
               | some Json.null => some none
               | some (Json.jobj lfs) => do
                   let s ← decodeStrField lfs "start"
                   let e ← decodeStrField lfs "end"
                   some (some { start := s, endPoint := e })
               | some _ => none
      some { id := i, customId := cid, lane := ln, status := fs.lookup "status" }
  | _ => none

/-- `encoding/json` unmarshal of a body into `[]Shipment` (the bare-array
fallback): `null` yields the nil slice, an array decodes elementwise,
anything else is an error. -/
def decodeShipmentList : Json → Option (List Shipment)
  | Json.null => some []
  | Json.jarr xs => xs.mapM decodeShipment
  | _ => none

/-- `encoding/json` unmarshal of the `pagination` object. -/
def decodePagination : Json → Option Pagination
  | Json.null => some {}
  | Json.jobj fs => do
      let st ← decodeIntField fs "start"
      let ps ← decodeIntField fs "pageSize"
      let tr ← decodeIntField fs "totalRecordsInPage"
      let ma ← decodeBoolField fs "moreAvailable"
      some { start := st, pageSize := ps, totalRecordsInPage := tr,
             moreAvailable := ma, lastObjectKey := fs.lookup "lastObjectKey" }
  | _ => none

/-- `encoding/json` unmarshal of the list envelope
`{Status, details:{shipments, pagination}}`.  The first component is the
`Details.Shipments` slice, `none` standing for Go's nil slice (field
absent or `null`). -/
def decodeWrappedList : Json → Option (Option (List Shipment) × Pagination)
  | Json.null => some (none, {})
  | Json.jobj fs => do
      let _ ← decodeStrField fs "Status"
      match fs.lookup "details" with
      | none => some (none, {})
      | some Json.null => some (none, {})
      | some (Json.jobj dfs) => do
          let ships ← match dfs.lookup "shipments" with
                      | none => some none
                      | some Json.null => some none
                      | some (Json.jarr xs) => (xs.mapM decodeShipment).map some
                      | some _ => none
          let pag ← match dfs.lookup "pagination" with
                    | none => some ({} : Pagination)
                    | some j => decodePagination j
          some (ships, pag)
      | some _ => none
  | _ => none

/-- The envelope attempt of the list operations: the Go condition
`err == nil && wrapped.Details.Shipments != nil`. -/
def envelopeShipments (body : Json) : Option (List Shipment × Pagination) :=
  match decodeWrappedList body with
  | some (some items, pag) => some (items, pag)
  | _ => none

/-- The pagination the fallback branch synthesizes:
`Start = start`, `PageSize = TotalRecordsInPage = len(shipments)`,
`MoreAvailable = false`. -/
def synthesizedPagination (startArg : Int) (n : Nat) : Pagination :=
  { start := startArg, pageSize := (n : Int), totalRecordsInPage := (n : Int),
    moreAvailable := false, lastObjectKey := none }

/-- The 200-body handling shared by `ListShipmentsPage` and
`ListShipmentsPageWithQuery`: try the envelope, fall back to a bare array
(`none` = both decodes failed, the Go error return).  `startArg` is the
`start` the fallback stores (the page argument, respectively
`atoiOrZero(q.Get("start"))`). -/
def parseListShipmentsBody (startArg : Int) (body : Json) :
    Option (List Shipment × Pagination) :=
  match envelopeShipments body with
  | some (items, pag) => some (items, pag)
  | none =>
      match decodeShipmentList body with
      | some arr => some (arr, synthesizedPagination startArg arr.length)
      | none => none

/-! ## Paging and find-by-external-id
(`Client.ListShipments` lines 333-359,
`Client.FindShipmentByExternalID` lines 460-472) -/

/-- Errors of the list/find operations.  `page` abstracts any failure of a
single `ListShipmentsPage` call (token error, non-200 status, decode
error); `notFound` is the `shipment not found for external id` error. -/
inductive ListErr where
  | page (status : Nat) (body : String)
  | notFound (externalID : String)
deriving Repr, DecidableEq

/-- The paging loop body of `Client.ListShipments`.  `fetch start` is one
`ListShipmentsPage(ctx, start, 100)` call (a page oracle indexed by the
cursor); the fuel is the `maxPages = 100` loop bound, after which the loop
falls out returning what it has. -/
def listShipmentsGo (fetch : Int → Except ListErr (List Shipment × Pagination)) :
    Nat → Int → List Shipment → Except ListErr (List Shipment)
  | 0, _, acc => Except.ok acc
  | Nat.succ fuel, start, acc =>
      match fetch start with
      | Except.error e => Except.error e
      | Except.ok (items, meta) =>
          let acc2 := acc ++ items
          if meta.moreAvailable = false then Except.ok acc2
          else
            let incr := if meta.totalRecordsInPage ≤ 0 then (items.length : Int)
                        else meta.totalRecordsInPage
            if incr ≤ 0 then Except.ok acc2
            else listShipmentsGo fetch fuel (start + incr) acc2

/-- `Client.ListShipments`: page from cursor 0 with the `maxPages = 100`
ceiling, accumulating all items. -/
def listShipmentsAll (fetch : Int → Except ListErr (List Shipment × Pagination)) :
    Except ListErr (List Shipment) :=
  listShipmentsGo fetch 100 0 []

/-- `Client.FindShipmentByExternalID`: list everything, then return the
first shipment whose `CustomID` equals the argument, else the not-found
error. -/
def findShipmentByExternalID
    (fetch : Int → Except ListErr (List Shipment × Pagination))
    (externalID : String) : Except ListErr Shipment :=
  match listShipmentsAll fetch with
  | Except.error e => Except.error e
  | Except.ok all =>
      match all.find? (fun s => s.customId == externalID) with
      | some s => Except.ok s
      | none => Except.error (ListErr.notFound externalID)

/-! ## Resource-operation 401 handling (`Client.GetShipment` lines 361-409;
`ListShipmentsPage`, `ListShipmentsPageWithQuery`, `ListCustomers` and
`CreateShipment` repeat the same pattern) -/

/-- One HTTP answer of the shipments endpoint, as `GetShipment`
distinguishes it.  `ok` carries the decoded shipment (body decoding is not
at issue in the retry logic). -/
inductive OpResp where
  | ok (s : Shipment)
  | unauthorized
  | httpError (code : Nat) (body : String)

/-- Errors of a resource operation. -/
inductive OpErr where
  | tokenErr (e : TokenErr)
  | httpStatus (code : Nat) (body : String)
  | noResponse

/-- The control flow of `Client.GetShipment` around one response list:
each element of `responses` is the endpoint's answer to the next request.
Per attempt the code runs `newRequest` (which calls `fetchToken(ctx,
false)` and fails the call on error), issues the request, and on a 401
calls `fetchToken(ctx, true)`; if that returns nil it re-invokes the whole
operation, otherwise it falls through to the non-200 branch and returns
the 401 as an error.  `tokResp` is the token endpoint's answer should
`fetchToken` reach the network; the third output component counts the
requests issued to the resource endpoint.  The `noResponse` result for an
exhausted list is a modelling artifact (the real server always answers). -/
def getShipmentLoop (st : TokenState) (now : Int) (tokResp : TokenHttpResp) :
    List OpResp → Except OpErr Shipment × TokenState × Nat
  | [] => (Except.error OpErr.noResponse, st, 0)
  | r :: rest =>
      match fetchToken st now false tokResp with
      | (Except.error e, st1, _) => (Except.error (OpErr.tokenErr e), st1, 0)
      | (Except.ok _, st1, _) =>
          match r with
          | OpResp.ok s => (Except.ok s, st1, 1)
          | OpResp.httpError code body =>
              (Except.error (OpErr.httpStatus code body), st1, 1)
          | OpResp.unauthorized =>
              match fetchToken st1 now true tokResp with
              | (Except.ok _, st2, _) =>
                  let out := getShipmentLoop st2 now tokResp rest
                  (out.1, out.2.1, out.2.2 + 1)
              | (Except.error _, st2, _) =>
                  (Except.error (OpErr.httpStatus 401 ""), st2, 1)

/-! ## Enrichment fan-out merge (`LoadHandler.ListLoads`,
handlers/loads.go lines 100-133) -/

/-- The enrichment predicate: a summary record is enriched unless it
already has a lane with a non-empty start or end
(`if s.Lane != nil && (s.Lane.Start != "" || s.Lane.End != "") continue`). -/
def needsEnrichment (s : Shipment) : Bool :=
  match s.lane with
  | some l => !(l.start != "" || l.endPoint != "")
  | none => true

/-- What one enrichment goroutine sends for index `i`: the detail record
when `GetShipment` succeeded (`fetched i = some detail`), the original
summary `shipments[i]` when it failed, timed out, or returned nil. -/
def enrichmentResult (shipments : List Shipment)
    (fetched : Nat → Option Shipment) (i : Nat) : Shipment :=
  match fetched i with
  | some detail => detail
  | none => shipments.getD i {}

/-- The collection loop: starting from a copy of the page, write each
arriving result into its original index.  `order` is the completion order
of the enrichment fetches (a permutation of the enriched index set). -/
def mergeEnriched (shipments : List Shipment) (fetched : Nat → Option Shipment)
    (order : List Nat) : List Shipment :=
  order.foldl (fun acc i => acc.set i (enrichmentResult shipments fetched i)) shipments

/-! ## Concrete fixtures used by the closed statements below -/

/-- A client state holding a bearer token that is still far from expiry. -/
def validTokenState : TokenState :=
  { token := "tok", tokenExp := 100000, refresh := "", nextOAuthAttempt := 0 }

/-- A client state holding a token with 50 seconds of validity left while a
rate-limit cooldown (until clock 1000) is active. -/
def staleTokenCooldownState : TokenState :=
  { token := "tok", tokenExp := 100, refresh := "", nextOAuthAttempt := 1000 }

/-- Response sequence for the 401-retry analysis: two consecutive 401s,
then a 200. -/
def twoUnauthorizedThenOk : List OpResp :=
  [OpResp.unauthorized, OpResp.unauthorized, OpResp.ok { customId := "SHIP-1" }]

/-- A configuration matching the public-API deployment
(`TURVO_BASE_URL=https://publicapi.turvo.com`, `TURVO_API_PREFIX=/v1`). -/
def exampleConfig : Config :=
  { turvoBaseURL := "https://publicapi.turvo.com", turvoAPIPathSeg := "/v1",
    turvoDefaultCustomerID := 7 }

/-- The spec's lane round-trip load: pickup Chicago/IL, delivery Detroit/MI. -/
def chicagoDetroitLoad : Load :=
  { pickup := { city := "Chicago", state := "IL" },
    consignee := { city := "Detroit", state := "MI" } }

/-- A wire shipment carrying exactly the lane the round-trip claim feeds
back into the mapper. -/
def chicagoDetroitShipment : Shipment :=
  { lane := some { start := "Chicago, IL", endPoint := "Detroit, MI" } }

/-- A list-envelope body whose `shipments` array is present but empty and
whose pagination says more data is available. -/
def envelopeEmptyShipmentsBody : Json :=
  Json.jobj
    [("Status", Json.jstr "ok"),
     ("details", Json.jobj
        [("shipments", Json.jarr []),
         ("pagination", Json.jobj
            [("start", Json.jnum 7), ("pageSize", Json.jnum 5),
             ("totalRecordsInPage", Json.jnum 5),
             ("moreAvailable", Json.jbool true)])])]

/-- A list-envelope body with one shipment and explicit pagination. -/
def envelopeOneShipmentBody : Json :=
  Json.jobj
    [("Status", Json.jstr "ok"),
     ("details", Json.jobj
        [("shipments", Json.jarr [Json.jobj [("id", Json.jnum 3),
                                             ("customId", Json.jstr "EXT-3")]]),
         ("pagination", Json.jobj
            [("start", Json.jnum 0), ("pageSize", Json.jnum 24),
             ("totalRecordsInPage", Json.jnum 1),
             ("moreAvailable", Json.jbool false)])])]

/-- A page oracle serving two pages (cursor 0 then cursor 2) and then
reporting no more data. -/
def twoPageFetch : Int → Except ListErr (List Shipment × Pagination)
  | 0 => Except.ok ([{ customId := "A" }, { customId := "B" }],
                    { start := 0, pageSize := 100, totalRecordsInPage := 2,
                      moreAvailable := true })
  | 2 => Except.ok ([{ customId := "C" }],
                    { start := 2, pageSize := 100, totalRecordsInPage := 1,
                      moreAvailable := false })
  | _ => Except.error (ListErr.page 500 "unexpected cursor")

/-- A page oracle whose first page fails with a 502. -/
def failingFetch : Int → Except ListErr (List Shipment × Pagination)
  | _ => Except.error (ListErr.page 502 "bad gateway")

/-- A four-record page where indices 1 and 3 lack a lane (and so require
enrichment) and indices 0 and 2 already carry one. -/
def summaryPage : List Shipment :=
  [{ id := 10, customId := "S0", lane := some { start := "A, AA", endPoint := "B, BB" } },
   { id := 11, customId := "S1" },
   { id := 12, customId := "S2", lane := some { start := "C, CC", endPoint := "D, DD" } },
   { id := 13, customId := "S3" }]

/-- Enrichment outcomes for `summaryPage`: the fetch for index 1 succeeds
with a detail record, the fetch for index 3 fails. -/
def summaryFetched : Nat → Option Shipment
  | 1 => some { id := 11, customId := "S1",
                lane := some { start := "E, EE", endPoint := "F, FF" } }
  | _ => none

/-! ## Theorems -/

/-- Claim C1 (code bug evidence): with a still-valid bearer token, a
resource call answered 401, 401, 200 issues a THIRD request and succeeds —
`GetShipment` re-invokes itself whenever the post-401 `fetchToken(ctx,
true)` returns nil, and with a valid token that `fetchToken` is an
immediate no-op success, so consecutive 401s retry without bound.  The
claim says the second 401 is surfaced as a final error with no third
attempt. -/
theorem c1_third_request_after_two_401s :
    getShipmentLoop validTokenState 0 (TokenHttpResp.httpError 500 "") twoUnauthorizedThenOk =
      (Except.ok { customId := "SHIP-1" }, validTokenState, 3) := rfl

/-- Claim C2: in a state with no valid token and no active cooldown, a 429
from the token endpoint sets the cooldown deadline to `now` plus the
parsed `Retry-After` seconds (60 when the header is absent or does not
parse as a positive integer); while the clock is before that deadline any
`fetchToken` call (with no valid token) fails with `RateLimitedError`
carrying the remaining duration and makes zero HTTP requests; and a
successful token acquisition clears the cooldown. -/
theorem c2_rate_limit_cooldown (st : TokenState) (now : Int) (u : Bool) (ra body : String)
    (htok : ¬(st.token ≠ "" ∧ st.tokenExp - now > 60))
    (hcool : ¬(now < st.nextOAuthAttempt)) :
    fetchToken st now u (TokenHttpResp.rateLimited ra body) =
      (Except.error (TokenErr.rateLimited (retryAfterCooldown ra) body),
       { st with nextOAuthAttempt := now + retryAfterCooldown ra }, 1) ∧
    retryAfterCooldown "" = 60 ∧
    (∀ k, goAtoi ra = some k → 0 < k → retryAfterCooldown ra = k) ∧
    (∀ st2 now2 u2 resp2, ¬(st2.token ≠ "" ∧ st2.tokenExp - now2 > 60) →
       now2 < st2.nextOAuthAttempt →
       fetchToken st2 now2 u2 resp2 =
         (Except.error (TokenErr.rateLimited (st2.nextOAuthAttempt - now2) ""), st2, 0)) ∧
    (∀ st3 now3 u3 a r e, ¬(st3.token ≠ "" ∧ st3.tokenExp - now3 > 60) →
       ¬(now3 < st3.nextOAuthAttempt) → goTrimSpace a ≠ "" →
       fetchToken st3 now3 u3 (TokenHttpResp.okJson a r e) =
         (Except.ok (),
          { token := goTrimSpace a, refresh := r,
            tokenExp := now3 + (if e ≤ 0 then 12 * 60 * 60 else e),
            nextOAuthAttempt := 0 }, 1)) := by
  refine ⟨?_, rfl, ?_, ?_, ?_⟩
  · simp only [fetchToken, if_neg htok, if_neg hcool]
  · intro k hk hpos
    have hne : ra ≠ "" := by
      intro h0
      rw [h0] at hk
      simp [goAtoi, parseDigits] at hk
    rw [retryAfterCooldown, if_pos hne, hk]
    show (if k > 0 then k else 60) = k
    exact if_pos hpos
  · intro st2 now2 u2 resp2 h1 h2
    simp only [fetchToken, if_neg h1, if_pos h2]
  · intro st3 now3 u3 a r e h1 h2 h3
    simp only [fetchToken, if_neg h1, if_neg h2, if_neg h3]

/-- Claim C2 witness: from the empty client state at clock 100, a 429 with
`Retry-After: 30` yields the rate-limited error and cooldown deadline
130. -/
theorem c2_rate_limit_cooldown_witness :
    fetchToken {} 100 false (TokenHttpResp.rateLimited "30" "b") =
      (Except.error (TokenErr.rateLimited (retryAfterCooldown "30") "b"),
       { nextOAuthAttempt := 100 + retryAfterCooldown "30" }, 1) :=
  (c2_rate_limit_cooldown {} 100 false "30" "b" (by decide) (by decide)).1

/-- Claim C3 counterexample: a held token with 50 seconds of validity left
does NOT trigger a fresh network acquisition when a rate-limit cooldown is
active — the call fails fast with `RateLimitedError` and makes zero HTTP
requests. -/
theorem c3_cooldown_blocks_renewal :
    staleTokenCooldownState.token ≠ "" ∧
    staleTokenCooldownState.tokenExp - 50 < 60 ∧
    fetchToken staleTokenCooldownState 50 false (TokenHttpResp.okJson "newtok" "r" 3600) =
      (Except.error (TokenErr.rateLimited 950 ""), staleTokenCooldownState, 0) :=
  ⟨by decide, by decide, rfl⟩

/-- Claim C3 as amended: a non-empty token whose expiry is more than 60
seconds away makes `fetchToken` return success immediately with zero
network calls and no state change; a call without such a token performs
exactly one network acquisition attempt UNLESS a rate-limit cooldown is
active, in which case it fails fast with `RateLimitedError` and zero
network calls. -/
theorem c3_token_reuse_and_renewal (st : TokenState) (now : Int) (u : Bool)
    (resp : TokenHttpResp) :
    (st.token ≠ "" → st.tokenExp - now > 60 →
       fetchToken st now u resp = (Except.ok (), st, 0)) ∧
    (¬(st.token ≠ "" ∧ st.tokenExp - now > 60) → ¬(now < st.nextOAuthAttempt) →
       (fetchToken st now u resp).2.2 = 1) ∧
    (¬(st.token ≠ "" ∧ st.tokenExp - now > 60) → now < st.nextOAuthAttempt →
       fetchToken st now u resp =
         (Except.error (TokenErr.rateLimited (st.nextOAuthAttempt - now) ""), st, 0)) := by
  refine ⟨?_, ?_, ?_⟩
  · intro h1 h2
    simp only [fetchToken, if_pos (And.intro h1 h2)]
  · intro h1 h2
    simp only [fetchToken, if_neg h1, if_neg h2]
    cases resp with
    | rateLimited ra body => rfl
    | httpError code body => rfl
    | okBadJson body => rfl
    | okJson a r e =>
        by_cases h : goTrimSpace a = ""
        · simp only [if_pos h]
        · simp only [if_neg h]
  · intro h1 h2
    simp only [fetchToken, if_neg h1, if_pos h2]

/-- Claim C3 witness: a valid token (expiry 100000, clock 0) is reused
with zero network calls. -/
theorem c3_token_reuse_witness :
    fetchToken validTokenState 0 false (TokenHttpResp.httpError 500 "") =
      (Except.ok (), validTokenState, 0) :=
  (c3_token_reuse_and_renewal validTokenState 0 false
    (TokenHttpResp.httpError 500 "")).1 (by decide) (by decide)

/-- Claim C4 counterexample: `fromTurvoShipment` applied to a shipment
carrying the lane `{start: "Chicago, IL", end: "Detroit, MI"}` does not
recover the pickup city `"Chicago"` — the lane is ignored and the load's
stops come back zero-valued. -/
theorem c4_lane_not_recovered :
    fromTurvoShipment chicagoDetroitShipment =
      Except.ok { status := "Unknown", specifications := some () } ∧
    ({ status := "Unknown", specifications := some () } : Load).pickup.city ≠ "Chicago" :=
  ⟨rfl, by decide⟩

/-- Claim C4 as amended: `toTurvoShipment` on the Chicago/IL →
Detroit/MI load produces the lane `{start: "Chicago, IL", end:
"Detroit, MI"}`, but `fromTurvoShipment` does not parse the lane back:
every load it returns has zero-valued pickup and consignee stops. -/
theorem c4_lane_one_way :
    (toTurvoShipment exampleConfig 0 chicagoDetroitLoad).lane =
      some { start := "Chicago, IL", endPoint := "Detroit, MI" } ∧
    (∀ s l, fromTurvoShipment s = Except.ok l →
       l.pickup = ({} : Stop) ∧ l.consignee = ({} : Stop)) := by
  refine ⟨rfl, ?_⟩
  intro s l h
  simp only [fromTurvoShipment, Except.ok.injEq] at h
  subst h
  exact ⟨rfl, rfl⟩

/-- Claim C4 witness: the amended mapping evaluated at the shipment built
by the forward direction. -/
theorem c4_lane_one_way_witness :
    ({ status := "Unknown", specifications := some () } : Load).pickup = ({} : Stop) ∧
    ({ status := "Unknown", specifications := some () } : Load).consignee = ({} : Stop) :=
  c4_lane_one_way.2 chicagoDetroitShipment
    { status := "Unknown", specifications := some () } rfl

/-- Claim C5 counterexample: an envelope whose `shipments` array is
present but EMPTY is accepted by the envelope branch — the returned
pagination is the envelope's (`moreAvailable = true`), not a synthesized
`moreAvailable = false`, and the body does not even parse as a bare
array.  The claim's "non-empty item set" condition is wrong: the code
tests `Details.Shipments != nil` (present), not non-empty. -/
theorem c5_empty_envelope_keeps_pagination :
    parseListShipmentsBody 0 envelopeEmptyShipmentsBody =
      some ([], { start := 7, pageSize := 5, totalRecordsInPage := 5,
                  moreAvailable := true, lastObjectKey := none }) ∧
    decodeShipmentList envelopeEmptyShipmentsBody = none :=
  ⟨rfl, rfl⟩

/-- Claim C5 as amended: if the body decodes as the envelope with a
PRESENT (non-nil, possibly empty) shipments array, the page metadata is
the envelope's pagination unchanged; otherwise the body is parsed as a
bare array and pagination is synthesized with `moreAvailable = false` and
`totalRecordsInPage` equal to the array length (and if both decodes fail,
the operation errors). -/
theorem c5_envelope_then_array_fallback (startArg : Int) (body : Json) :
    (∀ items pag, envelopeShipments body = some (items, pag) →
       parseListShipmentsBody startArg body = some (items, pag)) ∧
    (envelopeShipments body = none →
       ∀ arr, decodeShipmentList body = some arr →
       parseListShipmentsBody startArg body =
         some (arr, synthesizedPagination startArg arr.length)) ∧
    (envelopeShipments body = none → decodeShipmentList body = none →
       parseListShipmentsBody startArg body = none) := by
  refine ⟨?_, ?_, ?_⟩
  · intro items pag h
    simp only [parseListShipmentsBody, h]
  · intro h arr harr
    simp only [parseListShipmentsBody, h, harr]
  · intro h harr
    simp only [parseListShipmentsBody, h, harr]

/-- Claim C5 witness: an envelope with one shipment and explicit
pagination comes back with that pagination unchanged. -/
theorem c5_envelope_fallback_witness :
    parseListShipmentsBody 0 envelopeOneShipmentBody =
      some ([{ id := 3, customId := "EXT-3" }],
            { start := 0, pageSize := 24, totalRecordsInPage := 1,
              moreAvailable := false, lastObjectKey := none }) :=
  (c5_envelope_then_array_fallback 0 envelopeOneShipmentBody).1
    [{ id := 3, customId := "EXT-3" }]
    { start := 0, pageSize := 24, totalRecordsInPage := 1,
      moreAvailable := false, lastObjectKey := none } rfl

/-- Claim C8: with a bearer token held, the request builder uses the full
`v1` path segment; with no token, a base URL containing `publicapi.` and a
configured (slash-trimmed) prefix `v1`, it substitutes `public/v1`; in
every other token-less case the configured trimmed prefix is used
unchanged; and `buildPath` is exactly the suffix-aware join of the trimmed
base, the selected segment, and the trimmed resource path. -/
theorem c8_prefix_by_auth_mode (cfg : Config) (token p : String) :
    (token ≠ "" →
       apiPathSegment token (goTrimRightSlash cfg.turvoBaseURL)
         (goTrimSlash cfg.turvoAPIPathSeg) = "v1") ∧
    (token = "" →
       strContainsSub (goTrimRightSlash cfg.turvoBaseURL) "publicapi." = true →
       goTrimSlash cfg.turvoAPIPathSeg = "v1" →
       apiPathSegment token (goTrimRightSlash cfg.turvoBaseURL)
         (goTrimSlash cfg.turvoAPIPathSeg) = "public/v1") ∧
    (token = "" →
       ¬(strContainsSub (goTrimRightSlash cfg.turvoBaseURL) "publicapi." = true ∧
         (goTrimSlash cfg.turvoAPIPathSeg = "v1" ∨
          goTrimSlash cfg.turvoAPIPathSeg = "/v1")) →
       apiPathSegment token (goTrimRightSlash cfg.turvoBaseURL)
         (goTrimSlash cfg.turvoAPIPathSeg) = goTrimSlash cfg.turvoAPIPathSeg) ∧
    buildPath cfg token p =
      joinBasePath (goTrimRightSlash cfg.turvoBaseURL)
        (apiPathSegment token (goTrimRightSlash cfg.turvoBaseURL)
          (goTrimSlash cfg.turvoAPIPathSeg))
        (goTrimLeftSlash p) := by
  refine ⟨?_, ?_, ?_, rfl⟩
  · intro h
    simp only [apiPathSegment, if_pos h]
  · intro h1 h2 h3
    simp [apiPathSegment, h1, h2, h3]
  · intro h1 h2
    have hb : (strContainsSub (goTrimRightSlash cfg.turvoBaseURL) "publicapi." &&
        (goTrimSlash cfg.turvoAPIPathSeg == "v1" ||
         goTrimSlash cfg.turvoAPIPathSeg == "/v1")) ≠ true := by
      simpa [Bool.and_eq_true, Bool.or_eq_true, beq_iff_eq] using h2
    simp [apiPathSegment, h1, hb]

/-- Claim C8 witness: the public-API configuration (base
`https://publicapi.turvo.com`, prefix `/v1`) with no token selects the
restricted `public/v1` segment, and with a token selects `v1`. -/
theorem c8_prefix_witness :
    apiPathSegment "" (goTrimRightSlash exampleConfig.turvoBaseURL)
      (goTrimSlash exampleConfig.turvoAPIPathSeg) = "public/v1" ∧
    apiPathSegment "tok" (goTrimRightSlash exampleConfig.turvoBaseURL)
      (goTrimSlash exampleConfig.turvoAPIPathSeg) = "v1" :=
  ⟨(c8_prefix_by_auth_mode exampleConfig "" "shipments/list").2.1 rfl rfl rfl,
   (c8_prefix_by_auth_mode exampleConfig "tok" "shipments/list").1 (by decide)⟩

/-- Claim C9: an absent (nil or zero) pickup ready time makes
`toTurvoShipment` use the current clock as `startDate`; an absent
must-deliver time makes `endDate` the resolved pickup time plus 24 hours
(86400 seconds); a present non-zero time is used unchanged on either
side. -/
theorem c9_default_dates (cfg : Config) (now : Int) (load : Load) :
    ((load.pickup.readyTime = none ∨ load.pickup.readyTime = some 0) →
       (toTurvoShipment cfg now load).startDate.date = now) ∧
    ((load.consignee.mustDeliver = none ∨ load.consignee.mustDeliver = some 0) →
       (toTurvoShipment cfg now load).endDate.date =
         (toTurvoShipment cfg now load).startDate.date + 86400) ∧
    (∀ t, t ≠ 0 → load.pickup.readyTime = some t →
       (toTurvoShipment cfg now load).startDate.date = t) ∧
    (∀ t, t ≠ 0 → load.consignee.mustDeliver = some t →
       (toTurvoShipment cfg now load).endDate.date = t) := by
  refine ⟨?_, ?_, ?_, ?_⟩
  · rintro (h | h) <;> simp [toTurvoShipment, h]
  · rintro (h | h) <;> simp [toTurvoShipment, h]
  · intro t ht h
    simp [toTurvoShipment, h, ht]
  · intro t ht h
    simp [toTurvoShipment, h, ht]

/-- Claim C9 witness: a load with neither time set, mapped at clock 5,
gets `startDate = 5` and `endDate = 5 + 86400`. -/
theorem c9_default_dates_witness :
    (toTurvoShipment exampleConfig 5 {}).startDate.date = 5 ∧
    (toTurvoShipment exampleConfig 5 {}).endDate.date =
      (toTurvoShipment exampleConfig 5 {}).startDate.date + 86400 :=
  ⟨(c9_default_dates exampleConfig 5 {}).1 (Or.inl rfl),
   (c9_default_dates exampleConfig 5 {}).2.1 (Or.inl rfl)⟩

/-- Claim C10: for every input shipment — including one with an absent or
malformed status — `fromTurvoShipment` returns a load and a nil error;
the load's status is the extracted status code when that is non-empty and
`"Unknown"` otherwise, hence never the empty string.  The function's
error branch is unreachable. -/
theorem c10_fromTurvoShipment_total (s : Shipment) :
    ∃ l, fromTurvoShipment s = Except.ok l ∧
      l.status = (if extractStatusCode s.status = "" then "Unknown"
                  else extractStatusCode s.status) ∧
      l.status ≠ "" := by
  refine ⟨_, rfl, rfl, ?_⟩
  show (if extractStatusCode s.status = "" then "Unknown"
        else extractStatusCode s.status) ≠ ""
  by_cases h : extractStatusCode s.status = ""
  · rw [if_pos h]
    decide
  · rw [if_neg h]
    exact h

/-- Claim C6: `findShipmentByExternalID` fails with the page's own error
whenever the paging scan fails (and the loop surfaces the first failing
page fetch unchanged), and on a successful scan returns the first
shipment in listing order whose `CustomID` equals the argument, or the
not-found error when none matches. -/
theorem c6_find_scans_all_pages
    (fetch : Int → Except ListErr (List Shipment × Pagination)) (ext : String) :
    (∀ e, listShipmentsAll fetch = Except.error e →
       findShipmentByExternalID fetch ext = Except.error e) ∧
    (∀ all, listShipmentsAll fetch = Except.ok all →
       findShipmentByExternalID fetch ext =
         (match all.find? (fun s => s.customId == ext) with
          | some s => Except.ok s
          | none => Except.error (ListErr.notFound ext))) ∧
    (∀ fuel start acc e, fetch start = Except.error e →
       listShipmentsGo fetch (fuel + 1) start acc = Except.error e) := by
  refine ⟨?_, ?_, ?_⟩
  · intro e h
    simp only [findShipmentByExternalID, h]
  · intro all h
    simp only [findShipmentByExternalID, h]
  · intro fuel start acc e h
    simp only [listShipmentsGo, h]

/-- Claim C6 witness: over a two-page oracle the scan finds the shipment
`"C"` on the second page; over an oracle whose first page fails with a
502 the whole lookup fails with that error. -/
theorem c6_find_scans_witness :
    findShipmentByExternalID twoPageFetch "C" = Except.ok { customId := "C" } ∧
    findShipmentByExternalID failingFetch "C" =
      Except.error (ListErr.page 502 "bad gateway") :=
  ⟨(c6_find_scans_all_pages twoPageFetch "C").2.1
      [{ customId := "A" }, { customId := "B" }, { customId := "C" }] rfl,
   (c6_find_scans_all_pages failingFetch "C").1 (ListErr.page 502 "bad gateway") rfl⟩

/-- Writing results into distinct indices with `List.set` preserves the
length of the accumulator. -/
theorem foldl_set_length {α : Type} (r : Nat → α) (order : List Nat) :
    ∀ acc : List α, (order.foldl (fun a i => a.set i (r i)) acc).length = acc.length := by
  induction order with
  | nil => intro acc; rfl
  | cons i rest ih =>
      intro acc
      rw [List.foldl_cons, ih (acc.set i (r i)), List.length_set]

/-- Folding index-tagged writes over a duplicate-free completion order:
an index in the order ends up holding its result, every other index keeps
its accumulator value. -/
theorem foldl_set_getElem? {α : Type} (r : Nat → α) (order : List Nat) (j : Nat) :
    order.Nodup → ∀ acc : List α,
      (order.foldl (fun a i => a.set i (r i)) acc)[j]? =
        if j ∈ order ∧ j < acc.length then some (r j) else acc[j]? := by
  induction order with
  | nil =>
      intro _ acc
      simp
  | cons i rest ih =>
      intro hnd acc
      rcases List.nodup_cons.mp hnd with ⟨hi, hrest⟩
      rw [List.foldl_cons, ih hrest (acc.set i (r i))]
      simp only [List.length_set, List.getElem?_set, List.mem_cons]
      by_cases hjr : j ∈ rest
      · by_cases hjl : j < acc.length
        · simp [hjr, hjl]
        · simp only [hjr, hjl, and_true, and_false, if_false]
          by_cases hij : i = j
          · subst hij
            simp only [if_pos rfl, hjl, if_false]
            rw [List.getElem?_eq_none (Nat.le_of_not_lt hjl)]
            simp
          · simp [hij]
      · by_cases hij : i = j
        · subst hij
          by_cases hl : i < acc.length
          · simp [hjr, hl]
          · simp [hjr, hl, List.getElem?_eq_none (Nat.le_of_not_lt hl)]
        · have hji : j ≠ i := fun h => hij h.symm
          simp [hjr, hij, hji]

/-- Claim C7: for a page of N summary shipments and any duplicate-free
completion order covering exactly the indices that require enrichment,
the merged output has length N; an enriched index holds the fetched
detail when its fetch succeeded and retains its original summary record
when the fetch failed or timed out; an index that needed no enrichment is
untouched; and the merge result is the same for every completion order
with the same index set.  (The merge is total — the page call succeeds
regardless of individual fetch failures.) -/
theorem c7_enrichment_merge (shipments : List Shipment)
    (fetched : Nat → Option Shipment) (order : List Nat)
    (hnd : order.Nodup)
    (hall : ∀ j : Fin shipments.length,
      needsEnrichment (shipments.get j) = true → (j : Nat) ∈ order)
    (honly : ∀ j : Fin shipments.length,
      needsEnrichment (shipments.get j) = false → (j : Nat) ∉ order) :
    (mergeEnriched shipments fetched order).length = shipments.length ∧
    (∀ (j : Nat) (s d : Shipment), shipments[j]? = some s → needsEnrichment s = true →
       fetched j = some d →
       (mergeEnriched shipments fetched order)[j]? = some d) ∧
    (∀ (j : Nat) (s : Shipment), shipments[j]? = some s → needsEnrichment s = true →
       fetched j = none →
       (mergeEnriched shipments fetched order)[j]? = some s) ∧
    (∀ (j : Nat) (s : Shipment), shipments[j]? = some s → needsEnrichment s = false →
       (mergeEnriched shipments fetched order)[j]? = some s) ∧
    (∀ order2, order2.Nodup → (∀ i, i ∈ order2 ↔ i ∈ order) →
       mergeEnriched shipments fetched order2 = mergeEnriched shipments fetched order) := by
  refine ⟨foldl_set_length _ order shipments, ?_, ?_, ?_, ?_⟩
  · intro j s d h hen hf
    rcases List.getElem?_eq_some_iff.mp h with ⟨hlt, hg⟩
    have hmem : j ∈ order := by
      apply hall ⟨j, hlt⟩
      rw [List.get_eq_getElem]
      rw [hg, hen]
    rw [mergeEnriched, foldl_set_getElem? _ order j hnd shipments,
        if_pos (And.intro hmem hlt)]
    simp [enrichmentResult, hf]
  · intro j s h hen hf
    rcases List.getElem?_eq_some_iff.mp h with ⟨hlt, hg⟩
    have hmem : j ∈ order := by
      apply hall ⟨j, hlt⟩
      rw [List.get_eq_getElem]
      rw [hg, hen]
    rw [mergeEnriched, foldl_set_getElem? _ order j hnd shipments,
        if_pos (And.intro hmem hlt)]
    simp [enrichmentResult, hf, List.getD_eq_getElem?_getD, h]
  · intro j s h hen
    rcases List.getElem?_eq_some_iff.mp h with ⟨hlt, hg⟩
    have hmem : j ∉ order := by
      apply honly ⟨j, hlt⟩
      rw [List.get_eq_getElem]
      rw [hg, hen]
    rw [mergeEnriched, foldl_set_getElem? _ order j hnd shipments,
        if_neg (fun hc => hmem hc.1)]
    exact h
  · intro order2 hnd2 hiff
    apply List.ext_getElem?
    intro n
    rw [mergeEnriched, mergeEnriched, foldl_set_getElem? _ order2 n hnd2 shipments,
        foldl_set_getElem? _ order n hnd shipments]
    simp only [hiff]

/-- Claim C7 witness: on the four-record page with enrichment needed at
indices 1 and 3 and completion order [3, 1], index 1 holds the fetched
detail, index 3 (whose fetch failed) retains its summary record, and the
merge is invariant under swapping the completion order. -/
theorem c7_enrichment_merge_witness :
    (mergeEnriched summaryPage summaryFetched [3, 1])[1]? =
      some { id := 11, customId := "S1",
             lane := some { start := "E, EE", endPoint := "F, FF" } } ∧
    (mergeEnriched summaryPage summaryFetched [3, 1])[3]? =
      some { id := 13, customId := "S3" } ∧
    mergeEnriched summaryPage summaryFetched [1, 3] =
      mergeEnriched summaryPage summaryFetched [3, 1] :=
  ⟨(c7_enrichment_merge summaryPage summaryFetched [3, 1]
      (by decide) (by decide) (by decide)).2.1 1
      { id := 11, customId := "S1" }
      { id := 11, customId := "S1",
        lane := some { start := "E, EE", endPoint := "F, FF" } } rfl rfl rfl,
   (c7_enrichment_merge summaryPage summaryFetched [3, 1]
      (by decide) (by decide) (by decide)).2.2.1 3
      { id := 13, customId := "S3" } rfl rfl rfl,
   (c7_enrichment_merge summaryPage summaryFetched [3, 1]
      (by decide) (by decide) (by decide)).2.2.2.2 [1, 3]
      (by decide) (by simp [or_comm])⟩
